import Mathlib

set_option maxRecDepth 4000

/-! Shallow embedding of the TermiTask task store and recurrence engine.

The Task Store lives in src/database.py (class DatabaseManager), the
Recurrence Engine in src/utils/reminders.py, and the overdue post-filter
in src/cli.py (list_tasks).  SQLite rows are modelled as Lean structures,
the tasks table as a list of rows, and each store method as a pure
function from the store to an updated store paired with its return value.
Python datetime values are modelled by PyDateTime below. -/

namespace TermiTask

/-- Model of a naive Python datetime: a calendar date plus the
microseconds since midnight.  Python restricts the year to 1..9999; the
model uses Nat and the functions below agree with Python on that range. -/
structure PyDateTime where
  year : Nat
  month : Nat
  day : Nat
  usec : Nat
deriving DecidableEq

/-- Gregorian leap year rule, as implemented by the Python datetime
module. -/
def isLeapYear (y : Nat) : Bool :=
  y % 4 == 0 && (y % 100 != 0 || y % 400 == 0)

/-- Number of days in a month of a given year. -/
def daysInMonth (y m : Nat) : Nat :=
  if m == 2 then (if isLeapYear y then 29 else 28)
  else if m == 4 || m == 6 || m == 9 || m == 11 then 30
  else 31

/-- The calendar day after the given datetime, keeping the time of day.
One step of Python timedelta day arithmetic on a naive datetime. -/
def nextDay (d : PyDateTime) : PyDateTime :=
  if d.day < daysInMonth d.year d.month then { d with day := d.day + 1 }
  else if d.month < 12 then { d with month := d.month + 1, day := 1 }
  else { year := d.year + 1, month := 1, day := 1, usec := d.usec }

/-- Python datetime plus a timedelta of n days. -/
def addDays : Nat → PyDateTime → PyDateTime
  | 0, d => d
  | n + 1, d => addDays n (nextDay d)

/-- Python datetime.replace with a new day of month: raises ValueError,
modelled as none, when the requested day is out of range for the month. -/
def replaceDay (d : PyDateTime) (day : Nat) : Option PyDateTime :=
  if 1 ≤ day ∧ day ≤ daysInMonth d.year d.month then some { d with day := day }
  else none

/-- Python datetime comparison, first datetime at or before the second:
lexicographic on the date fields and then on the time of day. -/
def PyDateTime.le (a b : PyDateTime) : Bool :=
  if a.year ≠ b.year then decide (a.year < b.year)
  else if a.month ≠ b.month then decide (a.month < b.month)
  else if a.day ≠ b.day then decide (a.day < b.day)
  else decide (a.usec ≤ b.usec)

/-- A row of the tasks table (src/database.py lines 36-52).  Nullable
columns are Option; tags holds the comma-joined text the store writes. -/
structure Task where
  id : String
  title : String
  description : String
  due_date : Option String
  priority : String
  status : String
  tags : String
  recurrence : Option String
  created_at : String
  created_by : String
  assigned_to : Option String
deriving DecidableEq

/-- The filter dict accepted by DatabaseManager.get_tasks.  The
recurrence key is carried because check_and_update_recurring_tasks
passes it, but get_tasks (src/database.py lines 137-152) never reads
that key; only the five fields above it are consulted. -/
structure Filters where
  username : Option String := none
  search : Option String := none
  tags : List String := []
  priority : Option String := none
  status : Option String := none
  recurrence : Option Bool := none

/-- Python truthiness of an optional string value: None and the empty
string are falsy, every other string is truthy. -/
def optTruthy : Option String → Bool
  | none => false
  | some s => s != ""

/-- The needle occurs as a contiguous run inside the haystack. -/
def containsSub : List Char → List Char → Bool
  | needle, [] => needle.isEmpty
  | needle, c :: rest => needle.isPrefixOf (c :: rest) || containsSub needle rest

/-- SQLite LIKE with the pattern wrapped in percent wildcards on both
sides, as built by get_tasks: an ASCII-case-insensitive substring test.
Patterns containing LIKE metacharacters are not modelled; no claim uses
them. -/
def likeAnywhere (hay pat : String) : Bool :=
  containsSub (pat.data.map Char.toLower) (hay.data.map Char.toLower)

/-- The tags clause of get_tasks (src/database.py lines 144-146): an OR
of one LIKE test per requested tag against the tags column. -/
def tagsClause (fts : List String) (t : Task) : Bool :=
  fts.any fun tag => likeAnywhere t.tags tag

/-- The WHERE clause built by get_tasks (src/database.py lines 134-152):
five optional predicates, each skipped when its filter value is falsy,
combined with AND. -/
def matchesFilters (f : Filters) (t : Task) : Bool :=
  (if optTruthy f.username then
     (t.created_by == f.username.getD "" || t.assigned_to == some (f.username.getD ""))
   else true)
  && (if optTruthy f.search then
       (likeAnywhere t.title (f.search.getD "") || likeAnywhere t.description (f.search.getD ""))
     else true)
  && (if f.tags.isEmpty then true else tagsClause f.tags t)
  && (if optTruthy f.priority then t.priority == f.priority.getD "" else true)
  && (if optTruthy f.status then t.status == f.status.getD "" else true)

/-- DatabaseManager.get_tasks (src/database.py lines 132-159) restricted
to row selection.  The ORDER BY step only permutes the result and every
claim treated here concerns which rows are returned, so sorting is
omitted and rows keep store order. -/
def get_tasks (f : Filters) (store : List Task) : List Task :=
  store.filter (matchesFilters f)

/-- A patch dict for update_task: some v means the key is present with
value v; for nullable columns the inner Option is the stored value. -/
structure TaskPatch where
  id : Option String := none
  title : Option String := none
  description : Option String := none
  due_date : Option (Option String) := none
  priority : Option String := none
  status : Option String := none
  tags : Option String := none
  recurrence : Option (Option String) := none
  created_at : Option String := none
  created_by : Option String := none
  assigned_to : Option (Option String) := none
deriving DecidableEq

/-- The patch dict has no keys at all. -/
def TaskPatch.isEmpty (p : TaskPatch) : Bool :=
  p.id.isNone && p.title.isNone && p.description.isNone && p.due_date.isNone
  && p.priority.isNone && p.status.isNone && p.tags.isNone && p.recurrence.isNone
  && p.created_at.isNone && p.created_by.isNone && p.assigned_to.isNone

/-- Apply a patch to one row: exactly the keys present in the dict are
overwritten, because the SET clause lists exactly those keys. -/
def applyPatch (p : TaskPatch) (t : Task) : Task :=
  { id := p.id.getD t.id
    title := p.title.getD t.title
    description := p.description.getD t.description
    due_date := p.due_date.getD t.due_date
    priority := p.priority.getD t.priority
    status := p.status.getD t.status
    tags := p.tags.getD t.tags
    recurrence := p.recurrence.getD t.recurrence
    created_at := p.created_at.getD t.created_at
    created_by := p.created_by.getD t.created_by
    assigned_to := p.assigned_to.getD t.assigned_to }

/-- The CHECK constraints of the tasks table (src/database.py lines
42-45). -/
def rowConstraintsOk (t : Task) : Bool :=
  ["low", "medium", "high", "critical"].contains t.priority
  && ["pending", "completed"].contains t.status

/-- DatabaseManager.update_task (src/database.py lines 161-176).  An
empty updates dict builds a malformed SET clause, sqlite raises, the
handler catches and False is returned; a CHECK violation on a touched
row rolls the statement back and returns False; otherwise every row
whose id matches is patched and True is returned, with no check that any
row matched at all.  Patches that would place NULL in a NOT NULL column
or collide primary keys are not representable in TaskPatch or not
modelled; no claim exercises them. -/
def update_task (store : List Task) (task_id : String) (patch : TaskPatch) :
    List Task × Bool :=
  if patch.isEmpty then (store, false)
  else if store.all (fun t => !(t.id == task_id) || rowConstraintsOk (applyPatch patch t)) then
    (store.map fun t => if t.id == task_id then applyPatch patch t else t, true)
  else (store, false)

/-- DatabaseManager.assign_task (src/database.py lines 222-239): returns
False at once when the assignee is not a known username; otherwise runs
an UPDATE that sets assigned_to on every row whose id and created_by
match, and reports success exactly when the rowcount was positive. -/
def assign_task (users : List String) (store : List Task)
    (task_id assigner assignee : String) : List Task × Bool :=
  if users.contains assignee then
    (store.map fun t =>
       if t.id == task_id && t.created_by == assigner then
         { t with assigned_to := some assignee }
       else t,
     store.any fun t => t.id == task_id && t.created_by == assigner)
  else (store, false)

/-- Python str.split with a one-character separator, on char lists; used
to speak about the tag set denoted by a stored comma-joined tags string. -/
def pySplit (sep : Char) : List Char → List (List Char)
  | [] => [[]]
  | c :: rest =>
    if c == sep then [] :: pySplit sep rest
    else
      match pySplit sep rest with
      | [] => [[c]]
      | g :: gs => (c :: g) :: gs

/-- The view of a task row used by the recurrence engine: the due date
text parsed to a datetime value.  fromisoformat and isoformat are
treated as inverses on the timestamp value; a due date that is NULL, or
the falsy empty string which the guard skips before parsing, is none. -/
structure RTask where
  id : String
  title : String
  description : String
  due_date : Option PyDateTime
  priority : String
  status : String
  tags : String
  recurrence : Option String
  created_at : String
  created_by : String
  assigned_to : Option String
deriving DecidableEq

/-- calculate_next_occurrence (src/utils/reminders.py lines 6-14).  The
monthly branch replaces the day with 1, adds a timedelta of 32 days, and
replaces the day with the original day of month; that final replace can
raise ValueError, modelled as none.  Any other recurrence value, None
included, falls through and the due date is returned unchanged. -/
def calculate_next_occurrence (due : PyDateTime) (recurrence : Option String) :
    Option PyDateTime :=
  if recurrence == some "daily" then some (addDays 1 due)
  else if recurrence == some "weekly" then some (addDays 7 due)
  else if recurrence == some "monthly" then
    replaceDay (addDays 32 { due with day := 1 }) due.day
  else some due

/-- Loop body of check_and_update_recurring_tasks (src/utils/reminders.py
lines 18-25) for a single task: when the due date is present and not
after now, the row is rewritten as a copy of itself with only due_date
replaced by the next occurrence; the copied dict is written back through
update_task keyed by the unique row id.  none models the ValueError
escaping from calculate_next_occurrence. -/
def processTask (now : PyDateTime) (t : RTask) : Option RTask :=
  match t.due_date with
  | none => some t
  | some d =>
    if d.le now then
      match calculate_next_occurrence d t.recurrence with
      | none => none
      | some d2 => some { t with due_date := some d2 }
    else some t

/-- check_and_update_recurring_tasks (src/utils/reminders.py lines 16-25)
over the snapshot returned by get_tasks with the recurrence filter, a
snapshot that contains every task (see scan_query_returns_all).  Rows are
processed in order and every update is committed per task, so when a
ValueError escapes, earlier rows keep their new due dates while the
current and remaining rows are untouched; the Bool records whether the
scan ran to completion. -/
def check_and_update_recurring_tasks (now : PyDateTime) :
    List RTask → List RTask × Bool
  | [] => ([], true)
  | t :: ts =>
    match processTask now t with
    | none => (t :: ts, false)
    | some t2 =>
      (t2 :: (check_and_update_recurring_tasks now ts).1,
       (check_and_update_recurring_tasks now ts).2)

/-- Python string less-than: lexicographic on the code points, exactly
the comparison the cli applies to two ISO date texts. -/
def pyStrLt : List Char → List Char → Bool
  | [], [] => false
  | [], _ :: _ => true
  | _ :: _, [] => false
  | a :: as, b :: bs =>
    if a.toNat < b.toNat then true
    else if b.toNat < a.toNat then false
    else pyStrLt as bs

/-- The overdue post-filter predicate of list_tasks (src/cli.py line
103).  Python tests the stored due date text for truthiness and then
compares it with the ISO text of now using the plain string less-than. -/
def overduePred (now : String) (t : Task) : Bool :=
  match t.due_date with
  | none => false
  | some s => (s != "") && pyStrLt s.data now.data && (t.status != "completed")

/-- The overdue branch of list_tasks (src/cli.py lines 101-103): keep
exactly the rows satisfying the overdue predicate. -/
def list_tasks_overdue (now : String) (tasks : List Task) : List Task :=
  tasks.filter (overduePred now)

/-- The projection of a scan-level task row onto every field other than
the due date; used to state that the scan rewrites nothing else. -/
def frameView (t : RTask) :=
  (t.id, t.title, t.description, t.priority, t.status, t.tags, t.recurrence,
   t.created_at, t.created_by, t.assigned_to)

/-- The filter dict that the recurrence scan passes to get_tasks
(src/utils/reminders.py line 18). -/
def scanFilters : Filters := { recurrence := some true }

/-- A pending medium-priority row used as the base of the concrete
instances below. -/
def baseTask : Task :=
  { id := "aaaaaaaa-aaaa-aaaa-aaaa-aaaaaaaaaaaa", title := "t", description := "",
    due_date := none, priority := "medium", status := "pending", tags := "",
    recurrence := none, created_at := "2024-01-01", created_by := "alice",
    assigned_to := none }

/-- Scan-level counterpart of baseTask. -/
def baseRTask : RTask :=
  { id := "r1", title := "t", description := "", due_date := none,
    priority := "medium", status := "pending", tags := "", recurrence := none,
    created_at := "2024-01-01", created_by := "alice", assigned_to := none }

/-- Known users for the assignment instances. -/
def c1Users : List String := ["alice", "bob"]

/-- A task owned by alice for the assignment instances. -/
def c1Task : Task := { baseTask with id := "c1id", created_by := "alice" }

/-- A daily task five months overdue relative to c3Now. -/
def c3Task : RTask :=
  { baseRTask with due_date := some ⟨2024, 1, 1, 0⟩, recurrence := some "daily" }

/-- The clock instant for the double-scan counterexample. -/
def c3Now : PyDateTime := ⟨2024, 6, 1, 0⟩

/-- A daily task due just before c3wNow. -/
def c3wTask : RTask :=
  { baseRTask with due_date := some ⟨2024, 5, 31, 0⟩, recurrence := some "daily" }

/-- The clock instant for the stability witness. -/
def c3wNow : PyDateTime := ⟨2024, 5, 31, 1⟩

/-- c3wTask after one rollover: due the next day, now in the future. -/
def c3wTask2 : RTask := { c3wTask with due_date := some ⟨2024, 6, 1, 0⟩ }

/-- A task with NULL recurrence, for the retrieval counterexample. -/
def c4Task : Task := { baseTask with id := "norec" }

/-- A 36-character id that identifies no stored task. -/
def c5Ghost : String := "00000000-0000-0000-0000-000000000000"

/-- A task owned by alice, target of the owner-overwrite counterexample. -/
def c6Task : Task := { baseTask with id := "bbbb", created_by := "alice" }

/-- First task of the spec example: tag set of work and urgent. -/
def c7a : Task :=
  { baseTask with id := "c7a", tags := "work,urgent", due_date := some "2024-01-01" }

/-- Second task of the spec example: tag set of home. -/
def c7b : Task :=
  { baseTask with id := "c7b", tags := "home", due_date := some "2024-01-02" }

/-- Third task of the spec example: tag set of work. -/
def c7c : Task :=
  { baseTask with id := "c7c", tags := "work", due_date := some "2024-01-03" }

/-- A task whose single tag is homework, matched by the filter tag work. -/
def c7x : Task := { baseTask with id := "c7x", tags := "homework" }

/-- A monthly task for the frame witness. -/
def c8Task : RTask :=
  { baseRTask with id := "r8", due_date := some ⟨2024, 3, 15, 0⟩, recurrence := some "monthly" }

/-- The clock instant for the frame witness. -/
def c8Now : PyDateTime := ⟨2024, 4, 1, 0⟩

/-- A pending dated task for the overdue witness. -/
def c9Task : Task := { baseTask with id := "c9", due_date := some "2024-01-01" }

/-- The ISO text of now for the overdue witness. -/
def c9Now : String := "2024-06-01T00:00:00"

/-- An elapsed task with no recurrence, for the no-op witness. -/
def c10Task : RTask := { baseRTask with id := "r10", due_date := some ⟨2020, 1, 1, 0⟩ }

/-- The clock instant for the no-op witness. -/
def c10Now : PyDateTime := ⟨2024, 1, 1, 0⟩

/-- A substring of the tail is a substring of the whole list. -/
theorem containsSub_cons (needle : List Char) (c : Char) (rest : List Char)
    (h : containsSub needle rest = true) : containsSub needle (c :: rest) = true := by
  simp [containsSub, h]

/-- Mapping a character function preserves the prefix test. -/
theorem isPrefixOf_map (f : Char → Char) :
    ∀ a l : List Char, a.isPrefixOf l = true → (a.map f).isPrefixOf (l.map f) = true
  | [], _, _ => by simp [List.isPrefixOf]
  | _ :: _, [], h => by simp [List.isPrefixOf] at h
  | x :: xs, y :: ys, h => by
    simp only [List.isPrefixOf, Bool.and_eq_true, beq_iff_eq] at h
    simp only [List.map, List.isPrefixOf, Bool.and_eq_true, beq_iff_eq]
    exact ⟨congrArg f h.1, isPrefixOf_map f xs ys h.2⟩

/-- Mapping a character function preserves the substring test. -/
theorem containsSub_map (f : Char → Char) :
    ∀ a l : List Char, containsSub a l = true → containsSub (a.map f) (l.map f) = true
  | a, [], h => by
    simp only [containsSub, List.isEmpty_iff] at h
    simp [h, containsSub]
  | a, c :: rest, h => by
    simp only [containsSub, Bool.or_eq_true] at h
    rcases h with h | h
    · simp only [List.map, containsSub, Bool.or_eq_true]
      exact Or.inl (isPrefixOf_map f a (c :: rest) h)
    · simpa [List.map] using containsSub_cons (a.map f) (f c) (rest.map f)
        (containsSub_map f a rest h)

/-- The first group produced by pySplit is a prefix of the input. -/
theorem pySplit_head_pre (sep : Char) :
    ∀ l : List Char, ∃ g gs, pySplit sep l = g :: gs ∧ g.isPrefixOf l = true
  | [] => ⟨[], [], rfl, rfl⟩
  | c :: rest => by
    by_cases hc : c == sep
    · exact ⟨[], pySplit sep rest, by simp [pySplit, hc], rfl⟩
    · obtain ⟨g, gs, hsplit, hpre⟩ := pySplit_head_pre sep rest
      refine ⟨c :: g, gs, by simp [pySplit, hc, hsplit], ?_⟩
      simp [List.isPrefixOf, hpre]

/-- Every group produced by pySplit occurs as a substring of the input. -/
theorem mem_pySplit_sub (sep : Char) :
    ∀ (l a : List Char), a ∈ pySplit sep l → containsSub a l = true
  | [], a, h => by
    simp only [pySplit, List.mem_singleton] at h
    simp [h, containsSub]
  | c :: rest, a, h => by
    by_cases hc : c == sep
    · have hr : pySplit sep (c :: rest) = [] :: pySplit sep rest := by
        simp [pySplit, hc]
      rw [hr] at h
      rcases List.mem_cons.mp h with h | h
      · subst h
        simp [containsSub, List.isPrefixOf]
      · exact containsSub_cons a c rest (mem_pySplit_sub sep rest a h)
    · obtain ⟨g, gs, hsplit, hpre⟩ := pySplit_head_pre sep rest
      have hr : pySplit sep (c :: rest) = (c :: g) :: gs := by
        simp [pySplit, hc, hsplit]
      rw [hr] at h
      rcases List.mem_cons.mp h with h | h
      · subst h
        simp [containsSub, List.isPrefixOf, hpre]
      · refine containsSub_cons a c rest (mem_pySplit_sub sep rest a ?_)
        rw [hsplit]
        exact List.mem_cons_of_mem g h

/-- A map that fixes every member of a list leaves the list unchanged. -/
theorem map_self_of_fixes {α : Type} (l : List α) (f : α → α)
    (h : ∀ a ∈ l, f a = a) : l.map f = l :=
  (List.map_congr_left h).trans (List.map_id l)

/-- A scan step returns the task itself or the task with only the due
date replaced, so every other field keeps its value. -/
theorem processTask_frame (now : PyDateTime) (t t2 : RTask)
    (h : processTask now t = some t2) : frameView t2 = frameView t := by
  unfold processTask at h
  split at h
  · cases h
    rfl
  · split at h
    · split at h
      · cases h
      · cases h
        rfl
    · cases h
      rfl

/-- Claim C2 (code bug): for a monthly task due 2024-01-31 the rollover
raises ValueError instead of producing a clamped February date.  The
monthly branch computes 2024-02-02 and then replaces the day with 31,
which is out of range for February 2024, so the replace raises and no
next occurrence is produced. -/
theorem monthly_day31_value_error :
    calculate_next_occurrence ⟨2024, 1, 31, 0⟩ (some "monthly") = none := by decide

/-- Claim C3 counterexample: a daily task five months overdue is
advanced by each of two immediate scans run at the same instant: its due
date moves from 2024-01-01 to 2024-01-02 and then again to 2024-01-03,
so two runs within one tick change due_date twice, not at most once. -/
theorem scan_twice_advances_twice :
    c3Task.due_date = some ⟨2024, 1, 1, 0⟩
    ∧ ((check_and_update_recurring_tasks c3Now [c3Task]).1).map RTask.due_date
        = [some ⟨2024, 1, 2, 0⟩]
    ∧ ((check_and_update_recurring_tasks c3Now
          ((check_and_update_recurring_tasks c3Now [c3Task]).1)).1).map RTask.due_date
        = [some ⟨2024, 1, 3, 0⟩] := by decide

/-- Claim C4 counterexample: the retrieval step of the scan returns a
task whose recurrence field is NULL, because get_tasks ignores the
recurrence key of the filter dict. -/
theorem scan_query_retrieves_nonrecurring :
    get_tasks scanFilters [c4Task] = [c4Task] ∧ c4Task.recurrence = none := by decide

/-- Claim C4 amended: get_tasks never reads the recurrence key, so the
retrieval step of the recurrence scan returns every task of the store,
regardless of owner and regardless of whether recurrence is set. -/
theorem scan_query_returns_all (store : List Task) :
    get_tasks scanFilters store = store :=
  List.filter_eq_self.mpr fun _ _ => rfl

/-- Concrete instance of the amended C4 theorem. -/
theorem scan_query_returns_all_witness :
    get_tasks scanFilters [baseTask, c4Task] = [baseTask, c4Task] :=
  scan_query_returns_all [baseTask, c4Task]

/-- Claim C5 (code bug): updating a task id that identifies no stored
row with a nonempty valid patch reports success: the UPDATE matches no
row, sqlite raises nothing, and update_task returns True without the
rowcount check that assign_task performs; the store is unchanged. -/
theorem update_missing_id_reports_success :
    update_task [baseTask] c5Ghost { title := some "x" } = ([baseTask], true) := by decide

/-- Claim C6 counterexample: an update patch that contains created_by
overwrites the owner field, so created_by is not immutable under update
with an arbitrary field set. -/
theorem update_can_change_created_by :
    c6Task.created_by = "alice"
    ∧ ((update_task [c6Task] "bbbb" { created_by := some "eve" }).1).map Task.created_by
        = ["eve"] := by decide

/-- Claim C7 counterexample: the tags predicate is substring matching,
not tag set membership: filtering on the tag work matches and returns a
task whose only tag is homework, although work is not an element of its
tag set. -/
theorem tags_filter_not_membership :
    tagsClause ["work"] c7x = true
    ∧ get_tasks { tags := ["work"] } [c7x] = [c7x]
    ∧ ¬ ("work".data ∈ pySplit ',' c7x.tags.data) := by decide

/-- Claim C1: assignment succeeds exactly when the assignee is a known
user and some stored task carries the given id with created_by equal to
the assigner; on failure the store is unchanged, and on success the
owned rows with the given id get assigned_to overwritten with the
assignee while every other row is untouched. -/
theorem assign_task_ok (users : List String) (store : List Task) (tid asr ase : String) :
    ((assign_task users store tid asr ase).2 = true ↔
       ase ∈ users ∧ ∃ t ∈ store, t.id = tid ∧ t.created_by = asr)
    ∧ ((assign_task users store tid asr ase).2 = false →
       (assign_task users store tid asr ase).1 = store)
    ∧ ((assign_task users store tid asr ase).2 = true →
       (assign_task users store tid asr ase).1 =
         store.map fun t =>
           if t.id = tid ∧ t.created_by = asr then { t with assigned_to := some ase }
           else t) := by
  by_cases hu : users.contains ase = true
  · have hmem : ase ∈ users := by
      rw [← List.elem_iff]
      exact hu
    unfold assign_task
    simp only [hu, if_true]
    refine ⟨?_, ?_, ?_⟩
    · rw [List.any_eq_true]
      constructor
      · rintro ⟨t, ht, hcond⟩
        rw [Bool.and_eq_true, beq_iff_eq, beq_iff_eq] at hcond
        exact ⟨hmem, t, ht, hcond.1, hcond.2⟩
      · rintro ⟨-, t, ht, hid, hby⟩
        refine ⟨t, ht, ?_⟩
        rw [Bool.and_eq_true, beq_iff_eq, beq_iff_eq]
        exact ⟨hid, hby⟩
    · intro hfalse
      apply map_self_of_fixes
      intro t ht
      have hq := List.any_eq_false.mp hfalse t ht
      simp only [Bool.not_eq_true] at hq
      simp [hq]
    · intro _
      apply List.map_congr_left
      intro t _
      by_cases hid : t.id = tid
      · by_cases hby : t.created_by = asr
        · simp [hid, hby]
        · simp [hid, hby]
      · simp [hid]
  · have hmem : ¬ ase ∈ users := fun hx => hu (List.elem_iff.mpr hx)
    have hne : assign_task users store tid asr ase = (store, false) := by
      unfold assign_task
      exact if_neg hu
    rw [hne]
    exact ⟨⟨fun hfv => (Bool.false_ne_true hfv).elim, fun hx => (hmem hx.1).elim⟩,
           fun _ => rfl, fun hfv => (Bool.false_ne_true hfv).elim⟩

/-- Concrete instance of the C1 theorem: alice assigns her own task to
the known user bob, and this succeeds. -/
theorem assign_task_ok_witness :
    (assign_task c1Users [c1Task] "c1id" "alice" "bob").2 = true :=
  (assign_task_ok c1Users [c1Task] "c1id" "alice" "bob").1.mpr (by decide)

/-- Claim C3 amended: two runs within the same tick change a task at
most once provided its advanced due date is absent or no longer at or
before now; when the once-advanced due date is still not after now, as
in the counterexample, the second run advances the task again. -/
theorem scan_step_stable_when_future (now : PyDateTime) (t t2 : RTask)
    (_h1 : processTask now t = some t2)
    (h2 : Option.all (fun d => !(d.le now)) t2.due_date = true) :
    processTask now t2 = some t2 := by
  cases hd : t2.due_date with
  | none => simp [processTask, hd]
  | some d =>
    rw [hd] at h2
    have hle : d.le now = false := by simpa [Option.all] using h2
    simp [processTask, hd, hle]

/-- Concrete instance of the amended C3 theorem: a daily task due just
before now rolls over to the next day and a second step leaves it be. -/
theorem scan_step_stable_when_future_witness :
    processTask c3wNow c3wTask2 = some c3wTask2 :=
  scan_step_stable_when_future c3wNow c3wTask c3wTask2 (by decide) (by decide)

/-- Claim C6 amended: created_by and id are preserved by update whenever
the patch contains neither key; update applies exactly the supplied
keys with no whitelist, so a patch naming created_by or id overwrites
them, as the counterexample shows.  Assignment never changes either
field of any row. -/
theorem update_preserves_identity_fields (store : List Task) (tid : String) (p : TaskPatch)
    (hc : p.created_by = none) (hi : p.id = none)
    (users : List String) (asr ase : String) :
    ((update_task store tid p).1).map (fun t => (t.id, t.created_by))
      = store.map (fun t => (t.id, t.created_by))
    ∧ ((assign_task users store tid asr ase).1).map (fun t => (t.id, t.created_by))
      = store.map (fun t => (t.id, t.created_by)) := by
  constructor
  · unfold update_task
    split
    · rfl
    · split
      · rw [List.map_map]
        apply List.map_congr_left
        intro t _
        by_cases h : t.id == tid
        · simp [Function.comp, h, applyPatch, hc, hi]
        · simp [Function.comp, h]
      · rfl
  · unfold assign_task
    split
    · rw [List.map_map]
      apply List.map_congr_left
      intro t _
      by_cases h : t.id == tid && t.created_by == asr
      · simp [Function.comp, h]
      · simp [Function.comp, h]
    · rfl

/-- Concrete instance of the amended C6 theorem: a status-only patch and
an assignment both leave id and created_by alone. -/
theorem update_preserves_identity_fields_witness :
    ((update_task [c6Task] "bbbb" { status := some "completed" }).1).map
        (fun t => (t.id, t.created_by))
      = [c6Task].map (fun t => (t.id, t.created_by))
    ∧ ((assign_task c1Users [c6Task] "bbbb" "alice" "bob").1).map
        (fun t => (t.id, t.created_by))
      = [c6Task].map (fun t => (t.id, t.created_by)) :=
  update_preserves_identity_fields [c6Task] "bbbb" { status := some "completed" }
    rfl rfl c1Users "alice" "bob"

/-- Claim C7 amended: with one or more tag filters a task matches the
tags clause exactly when some requested tag occurs as an
ASCII-case-insensitive substring of the comma-joined tags column, still
ANDed with the other predicates; membership of a requested tag in the
tag set implies a match but not conversely, and the spec example still
returns exactly the first and third task. -/
theorem tags_filter_substring (fts : List String) (t : Task) :
    (tagsClause fts t = true ↔ ∃ tg ∈ fts, likeAnywhere t.tags tg = true)
    ∧ (∀ tg ∈ fts, tg.data ∈ pySplit ',' t.tags.data → tagsClause fts t = true)
    ∧ get_tasks { tags := ["work"] } [c7a, c7b, c7c] = [c7a, c7c] := by
  refine ⟨List.any_eq_true, ?_, by decide⟩
  intro tg htg hmem
  have h1 : containsSub tg.data t.tags.data = true :=
    mem_pySplit_sub ',' t.tags.data tg.data hmem
  have h2 := containsSub_map Char.toLower tg.data t.tags.data h1
  unfold tagsClause
  rw [List.any_eq_true]
  exact ⟨tg, htg, h2⟩

/-- Concrete instance of the amended C7 theorem: the tag work is in the
tag set of the third example task, so that task matches. -/
theorem tags_filter_substring_witness :
    tagsClause ["work"] c7c = true :=
  (tags_filter_substring ["work"] c7c).2.1 "work" (by decide) (by decide)

/-- Claim C8: the scan changes nothing but due_date: on the completed
path and on the aborted path alike, every row of the output agrees with
its input row on id, title, description, priority, status, tags,
recurrence, created_at, created_by and assigned_to. -/
theorem scan_preserves_other_fields (now : PyDateTime) (store : List RTask) :
    ((check_and_update_recurring_tasks now store).1).map frameView
      = store.map frameView := by
  induction store with
  | nil => rfl
  | cons t ts ih =>
    cases hp : processTask now t with
    | none => simp [check_and_update_recurring_tasks, hp]
    | some t2 =>
      simp [check_and_update_recurring_tasks, hp,
        processTask_frame now t t2 hp, ih]

/-- Concrete instance of the C8 theorem on a one-task store. -/
theorem scan_preserves_other_fields_witness :
    ((check_and_update_recurring_tasks c8Now [c8Task]).1).map frameView
      = [c8Task].map frameView :=
  scan_preserves_other_fields c8Now [c8Task]

/-- Claim C9: the overdue post-filter keeps exactly the members of its
input that carry a due date (a non-NULL, nonempty text; the store writes
a nonempty text whenever a due date is present), whose due text comes
strictly before the ISO text of now in the code point order Python
string less-than uses, the ISO-8601 text comparison the spec prescribes,
and whose status is not completed; tasks with no due date are never
kept. -/
theorem overdue_filter_mem (now : String) (tasks : List Task) (t : Task) :
    t ∈ list_tasks_overdue now tasks ↔
      t ∈ tasks
      ∧ (∃ s, t.due_date = some s ∧ s ≠ "" ∧ pyStrLt s.data now.data = true)
      ∧ t.status ≠ "completed" := by
  have hpred : overduePred now t = true ↔
      (∃ s, t.due_date = some s ∧ s ≠ "" ∧ pyStrLt s.data now.data = true)
        ∧ t.status ≠ "completed" := by
    unfold overduePred
    cases hd : t.due_date with
    | none => simp
    | some s => simp [Bool.and_eq_true, bne_iff_ne, and_assoc]
  unfold list_tasks_overdue
  rw [List.mem_filter, hpred]

/-- Concrete instance of the C9 theorem: a pending task due 2024-01-01
is kept by the filter at a June 2024 instant. -/
theorem overdue_filter_mem_witness :
    c9Task ∈ list_tasks_overdue c9Now [c9Task] :=
  (overdue_filter_mem c9Now [c9Task] c9Task).mpr
    ⟨by simp, ⟨"2024-01-01", rfl, by decide, by decide⟩, by decide⟩

/-- Claim C10: every recurrence value other than daily, weekly and
monthly, None included, leaves calculate_next_occurrence at the input
due date, and a scan step leaves a task with no recurrence entirely
unchanged even when it is retrieved and its due date has elapsed. -/
theorem unknown_recurrence_keeps_due_date (d : PyDateTime) (r : Option String)
    (now : PyDateTime) (t : RTask)
    (h1 : r ≠ some "daily") (h2 : r ≠ some "weekly") (h3 : r ≠ some "monthly")
    (ht : t.recurrence = none) :
    calculate_next_occurrence d r = some d ∧ processTask now t = some t := by
  have hbeq : ∀ (r0 : Option String) (x : String), r0 ≠ some x → (r0 == some x) = false := by
    intro r0 x hx
    rw [beq_eq_false_iff_ne]
    exact hx
  constructor
  · unfold calculate_next_occurrence
    simp [hbeq r "daily" h1, hbeq r "weekly" h2, hbeq r "monthly" h3]
  · cases hd : t.due_date with
    | none => simp [processTask, hd]
    | some dd =>
      by_cases hle : dd.le now
      · have hcalc : calculate_next_occurrence dd t.recurrence = some dd := by
          unfold calculate_next_occurrence
          simp [ht]
        simp only [processTask, hd, hle, if_true, hcalc]
        cases t
        simp_all
      · simp [processTask, hd, hle]

/-- Concrete instance of the C10 theorem: an unrecognised recurrence is
a no-op of the occurrence computation, and an elapsed task with no
recurrence passes through a scan step untouched. -/
theorem unknown_recurrence_keeps_due_date_witness :
    calculate_next_occurrence ⟨2024, 1, 31, 0⟩ none = some ⟨2024, 1, 31, 0⟩
    ∧ processTask c10Now c10Task = some c10Task :=
  unknown_recurrence_keeps_due_date ⟨2024, 1, 31, 0⟩ none c10Now c10Task
    (by decide) (by decide) (by decide) rfl

end TermiTask
